import Mathlib

/-!
Verification of the wine-quality EDA core (quality classification and the
group-by-class aggregation feeding the boxplots), shallowly embedded from
`src/wine_quality_assignment.py`.

A dataset row carries 11 real-valued physicochemical attributes and one
integer sensory quality score; real attribute values are modelled as `Rat`.
The Python classifier returns the strings `"Bad"`, `"Good"`, `"Very Good"`
or `None`; we model its result as `Option String`, with `none` standing for
the unassigned (Unclassified) outcome at quality 4.
-/

/-- One dataset row: the 11 physicochemical attributes plus the integer
`quality` score (columns of `winequality-red.csv`). -/
structure Record where
  fixed_acidity : Rat
  volatile_acidity : Rat
  citric_acid : Rat
  residual_sugar : Rat
  chlorides : Rat
  free_sulfur_dioxide : Rat
  total_sulfur_dioxide : Rat
  density : Rat
  pH : Rat
  sulphates : Rat
  alcohol : Rat
  quality : Int
deriving DecidableEq

/-- Embeds `map_quality_to_class` (src/wine_quality_assignment.py lines
199-207): `q < 4` gives `"Bad"`, `4 < q <= 7` gives `"Good"`, `q > 7` gives
`"Very Good"`, and the final `else` branch returns `None` (here `none`),
capturing `q == 4`. -/
def map_quality_to_class (q : Int) : Option String :=
  if q < 4 then some "Bad"
  else if 4 < q ∧ q ≤ 7 then some "Good"
  else if 7 < q then some "Very Good"
  else none

/-- Embeds the derived-column assignment
`df['quality_class'] = df['quality'].apply(map_quality_to_class)`
(line 209): each row is paired with the class computed from its quality. -/
def with_class (df : List Record) : List (Record × Option String) :=
  df.map (fun r => (r, map_quality_to_class r.quality))

/-- Embeds `df_classed = df.dropna(subset=['quality_class']).copy()`
(line 212): rows whose quality class is `None` are dropped, the rest keep
their class. -/
def df_classed (df : List Record) : List (Record × String) :=
  (with_class df).filterMap (fun p => p.2.map (fun c => (p.1, c)))

/-- Embeds `values_by_class(column)` (lines 215-220): the list of the
column values of the `df_classed` rows labelled `'Bad'`, then `'Good'`,
then `'Very Good'`, each sub-selection preserving row order. A column is a
projection out of a `Record`, so the definition is column-generic as the
Python one is. -/
def values_by_class (df : List Record) (column : Record → Rat) : List (List Rat) :=
  [ ((df_classed df).filter (fun p => p.2 == "Bad")).map (fun p => column p.1),
    ((df_classed df).filter (fun p => p.2 == "Good")).map (fun p => column p.1),
    ((df_classed df).filter (fun p => p.2 == "Very Good")).map (fun p => column p.1) ]

/-- The bucket of `values_by_class` that belongs to one class label. -/
def class_bucket (df : List Record) (column : Record → Rat) (c : String) : List Rat :=
  ((df_classed df).filter (fun p => p.2 == c)).map (fun p => column p.1)

/-- A dataframe as the classification step sees it: the loaded rows plus
the optional derived `quality_class` column (absent before line 209 runs,
present afterwards). -/
structure DF where
  rows : List Record
  quality_class : Option (List (Option String))

/-- The classification step as an operation on a dataframe (line 209): it
recomputes and stores the `quality_class` column from the `quality` column
and touches nothing else. -/
def assign_quality_class (d : DF) : DF :=
  { rows := d.rows,
    quality_class := some (d.rows.map (fun r => map_quality_to_class r.quality)) }

/-- A fixed test row with all physicochemical attributes zero and the given
quality score. -/
def mkRec (q : Int) : Record :=
  ⟨0, 0, 0, 0, 0, 0, 0, 0, 0, 0, 0, q⟩

/-- A second test row, differing from `mkRec q` in the alcohol attribute. -/
def mkRecAlt (q : Int) : Record :=
  ⟨0, 0, 0, 0, 0, 0, 0, 0, 0, 0, 1, q⟩

-- Helper lemmas shared by the claim theorems.

lemma classify_eq_none_iff (q : Int) : map_quality_to_class q = none ↔ q = 4 := by
  unfold map_quality_to_class
  split
  · exact ⟨fun hc => Option.noConfusion hc, fun hc => by omega⟩
  · split
    · exact ⟨fun hc => Option.noConfusion hc, fun hc => by omega⟩
    · split
      · exact ⟨fun hc => Option.noConfusion hc, fun hc => by omega⟩
      · exact ⟨fun _ => by omega, fun _ => rfl⟩

lemma classify_some_cases {q : Int} {c : String} (h : map_quality_to_class q = some c) :
    c = "Bad" ∨ c = "Good" ∨ c = "Very Good" := by
  unfold map_quality_to_class at h
  split at h
  · exact Or.inl (Option.some_injective _ h).symm
  · split at h
    · exact Or.inr (Or.inl (Option.some_injective _ h).symm)
    · split at h
      · exact Or.inr (Or.inr (Option.some_injective _ h).symm)
      · exact absurd h (by simp)

lemma mem_df_classed {df : List Record} {p : Record × String} (h : p ∈ df_classed df) :
    p.1 ∈ df ∧ map_quality_to_class p.1.quality = some p.2 := by
  unfold df_classed with_class at h
  rw [List.mem_filterMap] at h
  obtain ⟨a, ha, hmap⟩ := h
  rw [List.mem_map] at ha
  obtain ⟨r, hr, rfl⟩ := ha
  cases hc : map_quality_to_class r.quality with
  | none =>
    rw [hc] at hmap
    exact absurd hmap (by simp)
  | some c =>
    rw [hc] at hmap
    simp only [Option.map_some'] at hmap
    cases hmap
    exact ⟨hr, hc⟩

lemma df_classed_cons (r : Record) (t : List Record) :
    df_classed (r :: t) =
      match map_quality_to_class r.quality with
      | some c => (r, c) :: df_classed t
      | none => df_classed t := by
  unfold df_classed with_class
  rw [List.map_cons, List.filterMap_cons]
  cases h : map_quality_to_class r.quality <;> simp [h]

lemma map_fst_df_classed_sublist (df : List Record) :
    ((df_classed df).map Prod.fst).Sublist df := by
  induction df with
  | nil => simp [df_classed, with_class]
  | cons r t ih =>
    rw [df_classed_cons]
    cases h : map_quality_to_class r.quality with
    | none => exact ih.cons r
    | some c => simpa using ih.cons₂ r

lemma length_filter_three_classes (l : List (Record × String))
    (hl : ∀ p ∈ l, p.2 = "Bad" ∨ p.2 = "Good" ∨ p.2 = "Very Good") :
    (l.filter (fun p => p.2 == "Bad")).length
      + (l.filter (fun p => p.2 == "Good")).length
      + (l.filter (fun p => p.2 == "Very Good")).length = l.length := by
  induction l with
  | nil => rfl
  | cons p t ih =>
    have hp := hl p (List.mem_cons_self p t)
    have ht : ∀ q ∈ t, q.2 = "Bad" ∨ q.2 = "Good" ∨ q.2 = "Very Good" :=
      fun q hq => hl q (List.mem_cons_of_mem p hq)
    have := ih ht
    rcases hp with h | h | h <;>
      simp only [List.filter_cons, h] <;> simp_all <;> omega

lemma df_classed_length (df : List Record) :
    (df_classed df).length = (df.filter (fun r => r.quality != 4)).length := by
  induction df with
  | nil => rfl
  | cons r t ih =>
    rw [df_classed_cons, List.filter_cons]
    cases h : map_quality_to_class r.quality with
    | none =>
      have hq : r.quality = 4 := (classify_eq_none_iff r.quality).mp h
      simp [hq, ih]
    | some c =>
      have hq : r.quality ≠ 4 := by
        intro h4
        rw [(classify_eq_none_iff r.quality).mpr h4] at h
        exact Option.noConfusion h
      simp [hq, ih]

/-- C1: for every integer q, `map_quality_to_class` returns exactly one of
Bad, Good, Very Good or the unassigned outcome; it returns Bad whenever
q < 4, Good whenever 4 < q <= 7, Very Good whenever q > 7, and the
unassigned outcome exactly when q = 4. -/
theorem map_quality_to_class_spec (q : Int) :
    (map_quality_to_class q = some "Bad" ∨ map_quality_to_class q = some "Good" ∨
      map_quality_to_class q = some "Very Good" ∨ map_quality_to_class q = none) ∧
    (q < 4 → map_quality_to_class q = some "Bad") ∧
    (4 < q ∧ q ≤ 7 → map_quality_to_class q = some "Good") ∧
    (7 < q → map_quality_to_class q = some "Very Good") ∧
    (map_quality_to_class q = none ↔ q = 4) := by
  have h4 := classify_eq_none_iff q
  rcases lt_trichotomy q 4 with h | h | h
  · have e : map_quality_to_class q = some "Bad" := by
      unfold map_quality_to_class
      rw [if_pos h]
    exact ⟨Or.inl e, fun _ => e, fun hh => absurd hh (by omega),
      fun hh => absurd hh (by omega), h4⟩
  · have e : map_quality_to_class q = none := h4.mpr h
    exact ⟨Or.inr (Or.inr (Or.inr e)), fun hh => absurd hh (by omega),
      fun hh => absurd hh (by omega), fun hh => absurd hh (by omega), h4⟩
  · by_cases h7 : q ≤ 7
    · have e : map_quality_to_class q = some "Good" := by
        unfold map_quality_to_class
        rw [if_neg (by omega), if_pos ⟨h, h7⟩]
      exact ⟨Or.inr (Or.inl e), fun hh => absurd hh (by omega), fun _ => e,
        fun hh => absurd hh (by omega), h4⟩
    · have e : map_quality_to_class q = some "Very Good" := by
        unfold map_quality_to_class
        rw [if_neg (by omega), if_neg (by omega), if_pos (by omega)]
      exact ⟨Or.inr (Or.inr (Or.inl e)), fun hh => absurd hh (by omega),
        fun hh => absurd hh (by omega), fun _ => e, h4⟩

/-- C1 witness: the classifier evaluated at 3, 5, 8 and 4. -/
theorem map_quality_to_class_spec_witness :
    map_quality_to_class 3 = some "Bad" ∧ map_quality_to_class 5 = some "Good" ∧
    map_quality_to_class 8 = some "Very Good" ∧ map_quality_to_class 4 = none :=
  ⟨(map_quality_to_class_spec 3).2.1 (by decide),
   (map_quality_to_class_spec 5).2.2.1 (by decide),
   (map_quality_to_class_spec 8).2.2.2.1 (by decide),
   (map_quality_to_class_spec 4).2.2.2.2.mpr rfl⟩

/-- C2: no bucket returned by `values_by_class` contains a value taken from
a record whose quality classifies as unassigned (quality 4): every bucket
value comes from some input record whose quality is not 4. -/
theorem values_by_class_no_unclassified (df : List Record) (column : Record → Rat)
    (b : List Rat) (hb : b ∈ values_by_class df column)
    (v : Rat) (hv : v ∈ b) :
    ∃ r, r ∈ df ∧ r.quality ≠ 4 ∧ column r = v := by
  have trace : ∀ s : String,
      v ∈ ((df_classed df).filter (fun p => p.2 == s)).map (fun p => column p.1) →
      ∃ r, r ∈ df ∧ r.quality ≠ 4 ∧ column r = v := by
    intro s hm
    rw [List.mem_map] at hm
    obtain ⟨p, hp, hcol⟩ := hm
    have hpc := mem_df_classed (List.mem_of_mem_filter hp)
    refine ⟨p.1, hpc.1, ?_, hcol⟩
    intro h4
    rw [(classify_eq_none_iff p.1.quality).mpr h4] at hpc
    exact Option.noConfusion hpc.2
  simp only [values_by_class, List.mem_cons, List.not_mem_nil, or_false] at hb
  rcases hb with rfl | rfl | rfl
  · exact trace "Bad" hv
  · exact trace "Good" hv
  · exact trace "Very Good" hv

/-- C2 witness: with the one-row dataset whose quality is 5, value 0 of the
Good bucket is traced back to a record with quality not 4. -/
theorem values_by_class_no_unclassified_witness :
    ∃ r, r ∈ [mkRec 5] ∧ r.quality ≠ 4 ∧ Record.alcohol r = 0 :=
  values_by_class_no_unclassified [mkRec 5] Record.alcohol
    [(0 : Rat)] (by decide) 0 (by decide)

/-- C3: the lengths of the three buckets returned by `values_by_class` sum
to the number of input records whose classification is not the unassigned
outcome, that is, whose quality is not 4. -/
theorem values_by_class_length_sum (df : List Record) (column : Record → Rat) :
    ((values_by_class df column).map List.length).sum
      = (df.filter (fun r => r.quality != 4)).length := by
  have hall : ∀ p ∈ df_classed df, p.2 = "Bad" ∨ p.2 = "Good" ∨ p.2 = "Very Good" :=
    fun p hp => classify_some_cases (mem_df_classed hp).2
  have hpart := length_filter_three_classes (df_classed df) hall
  simp only [values_by_class, List.map_cons, List.map_nil, List.sum_cons,
    List.sum_nil, List.length_map, add_zero]
  rw [← df_classed_length df, ← hpart]
  ring

/-- C4: every bucket returned by `values_by_class` lists its values in the
same relative order as the corresponding records appear in the input
dataset: each bucket is a sublist of the column read off the whole input. -/
theorem values_by_class_order_preserving (df : List Record) (column : Record → Rat)
    (b : List Rat) (hb : b ∈ values_by_class df column) :
    b.Sublist (df.map column) := by
  have bucket : ∀ s : String,
      (((df_classed df).filter (fun p => p.2 == s)).map
        (fun p => column p.1)).Sublist (df.map column) := by
    intro s
    have h1 : (((df_classed df).filter (fun p => p.2 == s)).map Prod.fst).Sublist
        ((df_classed df).map Prod.fst) :=
      ((df_classed df).filter_sublist).map Prod.fst
    have h2 := (h1.trans (map_fst_df_classed_sublist df)).map column
    simpa [List.map_map, Function.comp] using h2
  simp only [values_by_class, List.mem_cons, List.not_mem_nil, or_false] at hb
  rcases hb with rfl | rfl | rfl
  · exact bucket "Bad"
  · exact bucket "Good"
  · exact bucket "Very Good"

/-- C4 witness: the Good bucket of the two-row dataset with qualities 5 and
4 is a sublist of the alcohol column of the whole dataset. -/
theorem values_by_class_order_preserving_witness :
    List.Sublist [(0 : Rat)] ([mkRec 5, mkRec 4].map Record.alcohol) :=
  values_by_class_order_preserving [mkRec 5, mkRec 4] Record.alcohol
    [(0 : Rat)] (by decide)

/-- C5: classification and aggregation are total: for every integer quality
the classifier lands in one of its four outcomes with no error branch, and
`values_by_class` is defined on every dataset, always yielding its three
buckets. -/
theorem classification_aggregation_total (q : Int) (df : List Record)
    (column : Record → Rat) :
    (map_quality_to_class q = some "Bad" ∨ map_quality_to_class q = some "Good" ∨
      map_quality_to_class q = some "Very Good" ∨ map_quality_to_class q = none) ∧
    (values_by_class df column).length = 3 := by
  constructor
  · unfold map_quality_to_class
    split
    · exact Or.inl rfl
    · split
      · exact Or.inr (Or.inl rfl)
      · split
        · exact Or.inr (Or.inr (Or.inl rfl))
        · exact Or.inr (Or.inr (Or.inr rfl))
  · rfl

/-- C6: classification is a pure function of the quality field alone: any
two rows with equal quality, at any positions of any two datasets, receive
the same derived class; no other attribute and no property of dataset order
influences the result. -/
theorem classification_noninterference (df1 df2 : List Record) (i j : Nat)
    (h1 : i < (with_class df1).length) (h2 : j < (with_class df2).length)
    (hq : ((with_class df1).get ⟨i, h1⟩).1.quality
        = ((with_class df2).get ⟨j, h2⟩).1.quality) :
    ((with_class df1).get ⟨i, h1⟩).2 = ((with_class df2).get ⟨j, h2⟩).2 := by
  simp only [with_class, List.get_eq_getElem, List.getElem_map] at hq ⊢
  rw [hq]

/-- C6 witness: two one-row datasets whose rows share quality 5 but differ
in the alcohol attribute receive the same class at position 0. -/
theorem classification_noninterference_witness :
    ((with_class [mkRec 5]).get ⟨0, by decide⟩).2
      = ((with_class [mkRecAlt 5]).get ⟨0, by decide⟩).2 :=
  classification_noninterference [mkRec 5] [mkRecAlt 5] 0 0
    (by decide) (by decide) (by decide)

/-- C7: the classification step is idempotent: recomputing the derived
quality-class column a second time leaves the dataframe exactly as after
the first computation. -/
theorem assign_quality_class_idempotent (d : DF) :
    assign_quality_class (assign_quality_class d) = assign_quality_class d := rfl

/-- C8: a class with zero matching records yields an empty bucket rather
than an error, and on the empty dataset `values_by_class` returns three
empty buckets. -/
theorem values_by_class_empty_buckets (df : List Record) (column : Record → Rat)
    (c : String) (h : ∀ r ∈ df, map_quality_to_class r.quality ≠ some c) :
    class_bucket df column c = [] ∧
    values_by_class ([] : List Record) column = [[], [], []] := by
  refine ⟨?_, rfl⟩
  unfold class_bucket
  have : (df_classed df).filter (fun p => p.2 == c) = [] := by
    rw [List.filter_eq_nil_iff]
    intro p hp
    have hpc := mem_df_classed hp
    simp only [beq_iff_eq]
    intro hc
    exact h p.1 hpc.1 (hc ▸ hpc.2)
  rw [this, List.map_nil]

/-- C8 witness: in the one-row dataset with quality 5 no record is Bad, so
the Bad bucket of the alcohol column is empty. -/
theorem values_by_class_empty_buckets_witness :
    class_bucket [mkRec 5] Record.alcohol "Bad" = [] ∧
    values_by_class ([] : List Record) Record.alcohol = [[], [], []] :=
  values_by_class_empty_buckets [mkRec 5] Record.alcohol "Bad" (by decide)

/-- C9: adding the derived quality-class column changes no other part of
the dataframe: the rows after classification are exactly the rows before,
every attribute and the quality of every record included, in the same
number and order; pairing rows with their class likewise reproduces the
original record sequence. -/
theorem classification_frame (d : DF) (df : List Record) :
    (assign_quality_class d).rows = d.rows ∧ (with_class df).map Prod.fst = df := by
  refine ⟨rfl, ?_⟩
  simp [with_class, List.map_map, Function.comp_def]

/-- C10: `values_by_class` returns exactly three buckets, always in the
fixed order Bad, Good, Very Good, with no caller-selectable class set and
never a bucket for the unassigned outcome. -/
theorem values_by_class_fixed_buckets (df : List Record) (column : Record → Rat) :
    values_by_class df column =
      [class_bucket df column "Bad", class_bucket df column "Good",
        class_bucket df column "Very Good"] ∧
    (values_by_class df column).length = 3 :=
  ⟨rfl, rfl⟩
